import Mathlib

/-!
Verification of the streaming pull/update relay and its client-side
consumers in the ollama-model management console.

The development shallowly embeds:
* the newline-delimited-JSON line handling of the two browser stream
  consumers (`pullModel` in `public/app.js`, and `pullModel` /
  `processUpdateStream` / `handleUpdateStatus` in the inline page script),
* the Express middleware stack of `server.js` (registration order,
  catch-all 404 middleware, error handlers, routes),
* the bulk-delete handlers, the stream-end synthetic record, and the
  `POST /api/set-endpoint` handler.

JavaScript numbers on the stream are nonnegative integers (byte counts),
so they are modelled as `Nat`; the division-by-zero artefacts of IEEE
arithmetic (`NaN` / `Infinity`) are modelled explicitly where the code
can produce them.
-/

namespace OllamaSpec

/-! ## A small JSON model

The progress stream carries flat JSON objects whose values are strings or
nonnegative integers (`status`, `error`, `completed`, `total`).  The
parser below accepts exactly those objects (no escapes, no nesting); any
other line is a parse failure, which matches `JSON.parse` throwing on the
malformed fragments considered in the theorems. -/

inductive JVal where
  | str (s : String)
  | num (n : Nat)
deriving Repr, DecidableEq

abbrev JObj := List (String × JVal)

def skipWs : List Char → List Char
  | [] => []
  | c :: cs => if c = ' ' ∨ c = '\t' ∨ c = '\n' ∨ c = '\r' then skipWs cs else c :: cs

/-- Scan a string literal body after the opening quote; no escape support. -/
def scanStr : List Char → Option (List Char × List Char)
  | [] => none
  | c :: cs =>
    if c = '"' then some ([], cs)
    else if c = '\\' then none
    else match scanStr cs with
      | some (s, rest) => some (c :: s, rest)
      | none => none

def scanDigits (acc : Nat) (cnt : Nat) : List Char → Nat × Nat × List Char
  | [] => (acc, cnt, [])
  | c :: cs =>
    if c.isDigit then scanDigits (acc * 10 + (c.toNat - 48)) (cnt + 1) cs
    else (acc, cnt, c :: cs)

def scanVal (cs : List Char) : Option (JVal × List Char) :=
  match cs with
  | [] => none
  | c :: rest =>
    if c = '"' then (scanStr rest).map (fun p => (.str (String.mk p.1), p.2))
    else if c.isDigit then
      let r := scanDigits 0 0 (c :: rest)
      if r.2.1 = 0 then none else some (.num r.1, r.2.2)
    else none

def scanPairs : Nat → List Char → Option (JObj × List Char)
  | 0, _ => none
  | fuel + 1, cs =>
    match skipWs cs with
    | '"' :: rest =>
      match scanStr rest with
      | none => none
      | some (key, r1) =>
        match skipWs r1 with
        | ':' :: r2 =>
          match scanVal (skipWs r2) with
          | none => none
          | some (v, r3) =>
            match skipWs r3 with
            | ',' :: r4 =>
              (scanPairs fuel r4).map (fun p => ((String.mk key, v) :: p.1, p.2))
            | '}' :: r4 => some ([(String.mk key, v)], r4)
            | _ => none
        | _ => none
    | _ => none

def parseJsonObj (cs : List Char) : Option JObj :=
  match skipWs cs with
  | '{' :: rest =>
    match skipWs rest with
    | '}' :: r2 => if skipWs r2 = [] then some [] else none
    | r2 =>
      match scanPairs (r2.length + 1) r2 with
      | some (ps, r3) => if skipWs r3 = [] then some ps else none
      | none => none
  | _ => none

/-! ## Progress records -/

/-- One parsed JSON object from the progress stream (§3 of the spec).
Absent fields are `none`, matching `undefined` property reads in JS.
Lines that parse as JSON but carry no string `status` field are outside
the model (none of the considered streams contains such lines). -/
structure ProgressRecord where
  status : String
  completed : Option Nat := none
  total : Option Nat := none
  error : Option String := none
deriving Repr, DecidableEq

def jLookup (o : JObj) (k : String) : Option JVal :=
  match o with
  | [] => none
  | p :: rest => if p.1 = k then some p.2 else jLookup rest k

def jStr : Option JVal → Option String
  | some (.str s) => some s
  | _ => none

def jNum : Option JVal → Option Nat
  | some (.num n) => some n
  | _ => none

def recordOfJson (o : JObj) : Option ProgressRecord :=
  match jStr (jLookup o "status") with
  | none => none
  | some st =>
    some { status := st, completed := jNum (jLookup o "completed"),
           total := jNum (jLookup o "total"), error := jStr (jLookup o "error") }

def parseLine (line : String) : Option ProgressRecord :=
  (parseJsonObj line.data).bind recordOfJson

/-! ## The line demultiplexer of both chunk loops

Both browser consumers process each received chunk the same way:
`new TextDecoder().decode(value).split('\n')`, skip lines whose `trim()`
is empty, and `JSON.parse` each remaining line independently.  Neither
loop carries a partial-line fragment over to the next chunk. -/

/-- JavaScript `str.split('\n')`. -/
def splitNewlines : List Char → List (List Char)
  | [] => [[]]
  | c :: cs =>
    if c = '\n' then [] :: splitNewlines cs
    else match splitNewlines cs with
      | [] => [[c]]
      | h :: t => (c :: h) :: t

/-- A line whose JavaScript `trim()` is the empty string. -/
def jsBlank (cs : List Char) : Bool := cs.all (fun c => c.isWhitespace)

/-- The nonblank lines a single chunk contributes: `split('\n')` of the
chunk, keeping lines with nonempty `trim()`. -/
def chunkLines (chunk : String) : List String :=
  ((splitNewlines chunk.data).filter (fun l => !jsBlank l)).map String.mk

/-- The ordered sequence of records the chunk loops parse from a chunked
stream: each chunk's lines are parsed independently, parse failures
skipped.  There is no carried-over fragment between chunks. -/
def demuxRecords (chunks : List String) : List ProgressRecord :=
  ((chunks.map (fun c => (chunkLines c).filterMap parseLine))).flatten

/-! ## Shared numeric helpers for the display formatting -/

/-- JavaScript `x || dflt` for a possibly-absent string (only `''` is falsy). -/
def jsOr (s : Option String) (dflt : String) : String :=
  match s with
  | some v => if v = "" then dflt else v
  | none => dflt

/-- `Math.round (num / den)` for nonnegative integers (round half up). -/
def jsRoundDiv (num den : Nat) : Nat := (2 * num + den) / (2 * den)

/-- `Math.floor (Math.log b / Math.log 1024)` for a positive integer `b`:
the number of times `b` can be integer-divided by 1024 before dropping
below 1024. -/
def logFloor1024Aux : Nat → Nat → Nat
  | 0, _ => 0
  | fuel + 1, b => if 1024 ≤ b then logFloor1024Aux fuel (b / 1024) + 1 else 0

def logFloor1024 (b : Nat) : Nat := logFloor1024Aux b b

def sizeUnits : List String := ["B", "KB", "MB", "GB", "TB"]

/-- `(n hundredths)` rendered as JS `parseFloat(v.toFixed(2))` renders a
number: two decimals with trailing zeros (and a trailing dot) stripped. -/
def stripFixed2 (n : Nat) : String :=
  if n % 100 = 0 then toString (n / 100)
  else if n % 10 = 0 then toString (n / 100) ++ "." ++ toString (n / 10 % 10)
  else toString (n / 100) ++ "." ++ toString (n / 10 % 10) ++ toString (n % 10)

/-- `AppState.formatSize` from `public/app.js`:
`parseFloat((bytes / 1024^i).toFixed(2)) + ' ' + sizes[i]` with
`i = floor(log bytes / log 1024)`; `formatSize(0) = '0 B'`, and an
`undefined` argument yields `"NaN undefined"`. -/
def appFormatSize (bytes : Option Nat) : String :=
  match bytes with
  | none => "NaN undefined"
  | some 0 => "0 B"
  | some b =>
    let i := logFloor1024 b
    let p := 1024 ^ i
    stripFixed2 ((200 * b + p) / (2 * p)) ++ " " ++ sizeUnits.getD i "undefined"

/-- `(n tenths)` rendered with one decimal, JS `v.toFixed(1)`. -/
def fixed1 (n : Nat) : String := toString (n / 10) ++ "." ++ toString (n % 10)

/-- `(n hundredths)` rendered with exactly two decimals, JS `v.toFixed(2)`. -/
def fixed2 (n : Nat) : String :=
  toString (n / 100) ++ "." ++ toString (n / 10 % 10) ++ toString (n % 100 % 10)

/-- `formatSize` from the inline page script: `''` for `0`/`undefined`,
otherwise divide by 1024 at most four times and print with two decimals. -/
def fmtSize0 (bytes : Option Nat) : String :=
  match bytes with
  | none => ""
  | some 0 => ""
  | some b =>
    let i := min (logFloor1024 b) 4
    let p := 1024 ^ i
    fixed2 ((200 * b + p) / (2 * p)) ++ " " ++ sizeUnits.getD i ""

/-! ## The `pullModel` loop of `public/app.js` (lines 831–893)

Per parsed record: `downloading` always updates the progress bar and the
progress text; `verifying` and `success` set fixed labels; every other
status is ignored (no branch).  A JSON parse failure is logged and the
loop continues.  The displayed percentage is
`data.total > 0 ? Math.round(data.completed / data.total * 100) : 0`;
`none` models the `NaN` that an absent `completed` would produce. -/

def appPercent (completed total : Option Nat) : Option Nat :=
  match total with
  | some t =>
    if 0 < t then
      match completed with
      | some c => some (jsRoundDiv (100 * c) t)
      | none => none
    else some 0
  | none => some 0

def percentText : Option Nat → String
  | some n => toString n
  | none => "NaN"

inductive PullEvent where
  | downloading (percent : Option Nat) (text : String)
  | label (text : String)
deriving Repr, DecidableEq

def appEventsOfRecord (r : ProgressRecord) : List PullEvent :=
  if r.status = "downloading" then
    [ .downloading (appPercent r.completed r.total)
        ("Downloading: " ++ percentText (appPercent r.completed r.total) ++ "% ("
          ++ appFormatSize r.completed ++ " / " ++ appFormatSize r.total ++ ")") ]
  else if r.status = "verifying" then [ .label "Verifying checksum..." ]
  else if r.status = "success" then [ .label "Pull completed successfully" ]
  else []

def appProcessLine (line : String) : List PullEvent :=
  match parseLine line with
  | none => []
  | some r => appEventsOfRecord r

def appProcessLines (lines : List String) : List PullEvent :=
  (lines.map appProcessLine).flatten

def appProcessChunks (chunks : List String) : List PullEvent :=
  (chunks.map (fun c => appProcessLines (chunkLines c))).flatten

/-! ## `handleUpdateStatus` and `processUpdateStream` (inline script) -/

/-- The `Downloading:` figure of `handleUpdateStatus`:
`((update.completed / update.total) * 100).toFixed(1)` with no guard on
`total`, reproducing the IEEE artefacts: `0/0` renders `"NaN"`, `c/0`
for positive `c` renders `"Infinity"`, and an absent operand renders
`"NaN"`. -/
def progressStr (completed total : Option Nat) : String :=
  match completed, total with
  | some c, some t =>
    if t = 0 then (if c = 0 then "NaN" else "Infinity")
    else fixed1 ((2000 * c + t) / (2 * t))
  | _, _ => "NaN"

/-- `handleUpdateStatus`: throws `Error(update.error || 'Update failed')`
on an `error` record, otherwise returns the label for the status. -/
def handleUpdateStatus (r : ProgressRecord) : Except String String :=
  if r.status = "error" then .error (jsOr r.error "Update failed")
  else if r.status = "downloading" then
    .ok ("Downloading: " ++ progressStr r.completed r.total ++ "%")
  else if r.status = "verifying digest" then .ok "Verifying download..."
  else if r.status = "writing manifest" then .ok "Finalizing update..."
  else .ok r.status

/-- State of `processUpdateStream`: the `lastStatus` de-duplication
variable, the labels rendered so far, and the operation error that
escaped the loop, if any. -/
structure UpdState where
  lastStatus : String
  rendered : List String
  err : Option String
deriving Repr, DecidableEq

def updInit : UpdState := { lastStatus := "", rendered := [], err := none }

/-- One parsed record in `processUpdateStream`.  The surrounding `catch`
re-raises a thrown error only when its message is exactly
`'Update failed'`; any other message — including one carried in the
record's `error` field — is logged like a parse failure and the loop
continues. -/
def updStepRecord (st : UpdState) (r : ProgressRecord) : UpdState :=
  match handleUpdateStatus r with
  | .error msg =>
    if msg = "Update failed" then { st with err := some msg } else st
  | .ok newStatus =>
    if newStatus ≠ st.lastStatus then
      { st with lastStatus := newStatus, rendered := st.rendered ++ [newStatus] }
    else st

def updStepLine (st : UpdState) (line : String) : UpdState :=
  if st.err.isSome then st
  else if jsBlank line.data then st
  else
    match parseLine line with
    | none => st
    | some r => updStepRecord st r

def processUpdateStream (lines : List String) : UpdState :=
  lines.foldl updStepLine updInit

/-! ## The `pullModel` loop of the inline script (lines 528–565)

An `error` record throws `Error(update.error || 'Pull failed')`; the
`catch` re-raises only the exact message `'Pull failed'`.  A
`downloading` record always rewrites the progress text and the status
element; any other status is rendered only when it differs from
`lastStatus` (which the `downloading` branch does not update). -/

inductive P0Event where
  | progress (progressText : String) (statusText : String)
  | status (text : String)
deriving Repr, DecidableEq

structure P0State where
  lastStatus : String
  events : List P0Event
  err : Option String
deriving Repr, DecidableEq

def p0Init : P0State := { lastStatus := "", events := [], err := none }

def p0StepRecord (st : P0State) (r : ProgressRecord) : P0State :=
  if r.status = "error" then
    let msg := jsOr r.error "Pull failed"
    if msg = "Pull failed" then { st with err := some msg } else st
  else if r.status = "downloading" then
    { st with events := st.events ++
        [ .progress ("Downloading: " ++ fmtSize0 r.completed ++ " / " ++ fmtSize0 r.total)
            r.status ] }
  else if r.status ≠ st.lastStatus then
    { st with lastStatus := r.status, events := st.events ++ [ .status r.status ] }
  else st

def p0StepLine (st : P0State) (line : String) : P0State :=
  if st.err.isSome then st
  else if jsBlank line.data then st
  else
    match parseLine line with
    | none => st
    | some r => p0StepRecord st r

def pull0Process (lines : List String) : P0State :=
  lines.foldl p0StepLine p0Init

/-! ## The Express middleware stack of `server.js`

Express dispatches a request through the middleware/route entries in
registration order.  A plain middleware or a matching route may respond,
call `next()`, or call `next(err)`; once an error is passed down, only
error-handling middleware registered *after* the raising entry is
considered.  Bodies are modelled as strings (production mode: no stack
traces). -/

structure Req where
  method : String
  path : String
deriving Repr, DecidableEq

structure Resp where
  status : Nat
  body : String
deriving Repr, DecidableEq

inductive Step where
  | next
  | nextErr (status : Nat) (msg : String)
  | send (status : Nat) (body : String)

inductive MW where
  | mount (run : Req → Step)
  | route (method : String) (path : String) (run : Req → Step)
  | errorH (run : Nat → String → Req → Resp)

def runErrs (stack : List MW) (status : Nat) (msg : String) (req : Req) : Option Resp :=
  match stack with
  | [] => none
  | .errorH run :: _ => some (run status msg req)
  | _ :: rest => runErrs rest status msg req

def runStack (stack : List MW) (req : Req) : Option Resp :=
  match stack with
  | [] => none
  | .errorH _ :: rest => runStack rest req
  | .mount run :: rest =>
    match run req with
    | .send s b => some ⟨s, b⟩
    | .next => runStack rest req
    | .nextErr s m => runErrs rest s m req
  | .route m p run :: rest =>
    if req.method = m ∧ req.path = p then
      match run req with
      | .send s b => some ⟨s, b⟩
      | .next => runStack rest req
      | .nextErr s msg => runErrs rest s msg req
    else runStack rest req

/-- The centralized error handler registered at `server.js:328`:
`res.status(status).json({ success:false, error: message })`. -/
def centralErrorHandler (status : Nat) (msg : String) (_ : Req) : Resp :=
  ⟨status, "\x7b\"success\":false,\"error\":\"" ++ msg ++ "\"\x7d"⟩

/-- The global error handler registered at `server.js:801`:
`res.status(status).json({ success:false, message })`. -/
def globalErrorHandler (status : Nat) (msg : String) (_ : Req) : Resp :=
  ⟨status, "\x7b\"success\":false,\"message\":\"" ++ msg ++ "\"\x7d"⟩

/-- The catch-all middleware at `server.js:351` (and again at 796):
`next(createError(404, 'Not Found - ' + req.originalUrl))`. -/
def notFoundMW : MW :=
  .mount (fun req => .nextErr 404 ("Not Found - " ++ req.path))

/-- A route handler that, if ever reached, would proxy the upstream
daemon; reaching it is modelled as a distinguished 200 response, since
the claims about this stack only concern reachability. -/
def proxied (name : String) : Req → Step := fun _ => .send 200 ("reached:" ++ name)

/-- `server.js` registrations in source order.  Logging, security,
body-parsing and rate-limit middleware always `next()` for the requests
considered here and are modelled as pass-throughs; `apiKeyAuth` passes
because `API_KEY` is unset in the default environment; the swagger and
static mounts match no `/api/...` request. -/
def serverStack : List MW := [
  .mount (fun _ => .next),                                    -- pino-http logger
  .mount (fun _ => .next),                                    -- helmet
  .mount (fun _ => .next),                                    -- cors
  .mount (fun _ => .next),                                    -- rate limiter
  .mount (fun _ => .next),                                    -- json / urlencoded / compression
  .mount (fun _ => .next),                                    -- apiKeyAuth (API_KEY unset)
  .mount (fun _ => .next),                                    -- swagger-ui at /api-docs
  .mount (fun _ => .next),                                    -- express.static('public')
  .route "GET" "/health" (fun _ => .send 200 "\x7b\"status\":\"ok\"\x7d"),
  .route "GET" "/api/endpoints" (proxied "GET /api/endpoints"),
  .route "POST" "/api/set-endpoint" (proxied "POST /api/set-endpoint"),
  .errorH centralErrorHandler,                                -- line 328
  notFoundMW,                                                 -- line 351
  .route "GET" "/api/models" (proxied "GET /api/models"),     -- line 371
  .route "DELETE" "/api/models" (proxied "DELETE /api/models"),  -- line 462
  .route "POST" "/api/pull" (proxied "POST /api/pull"),       -- line 541
  .route "GET" "/api/ps" (proxied "GET /api/ps"),             -- line 622
  notFoundMW,                                                 -- line 796
  .errorH globalErrorHandler,                                 -- line 801
  .route "POST" "/api/update-model" (proxied "POST /api/update-model"),  -- line 920
  .route "GET" "/health" (fun _ => .send 200 "\x7b\"status\":\"ok\"\x7d"),
  .route "DELETE" "/api/models" (proxied "DELETE /api/models second"),   -- line 987
  .route "POST" "/api/pull" (proxied "POST /api/pull second")            -- line 1076
]

/-! ## The bulk-delete handlers -/

inductive SettleResult where
  | ok
  | rejected (msg : String)
deriving Repr, DecidableEq

/-- The failure aggregation shared by both handlers:
`results.map((result, i) => ({model: models[i], error: rejected ? msg : null}))
       .filter(item => item.error)`
(an empty rejection message is falsy and filtered out, like `null`). -/
def failedOf (models : List String) (results : List SettleResult) : List (String × String) :=
  (models.zip results).filterMap (fun p =>
    match p.2 with
    | .ok => none
    | .rejected e => if e = "" then none else some (p.1, e))

structure DeleteBody where
  success : Bool
  message : String
  deleted : Option Nat := none
  failed : Option (List (String × String)) := none
  count : Option Nat := none
deriving Repr, DecidableEq

structure HttpError where
  status : Nat
  message : String
deriving Repr, DecidableEq

/-- `createError(207, props)`: 207 is a known status (`Multi-Status`), so
`http-errors` keeps it; `props.message` becomes the error message, while
the `failed` and `deleted` properties live only on the error object. -/
def createError207 (message : String) : HttpError := ⟨207, message⟩

/-- What the global error handler renders from a thrown `HttpError`
(production mode): `res.status(err.status).json({success:false, message})`
— the extra properties attached by `createError` are not copied. -/
def errorHandlerRender (e : HttpError) : Nat × DeleteBody :=
  (e.status, { success := false, message := e.message })

/-- The first-registered `DELETE /api/models` handler (`server.js:462`):
on any failure it *throws* `createError(207, {success, message, failed,
deleted})` instead of responding directly. -/
def deleteHandler1Core (models : List String) (results : List SettleResult) :
    Except HttpError (Nat × DeleteBody) :=
  let failed := failedOf models results
  if 0 < failed.length then
    .error (createError207 "Some models could not be deleted")
  else
    .ok (200, { success := true, message := "Models deleted successfully",
                count := some models.length })

/-- The first handler composed with the global error handler — the
response the client would see if the route were reachable. -/
def deleteRoute1 (models : List String) (results : List SettleResult) : Nat × DeleteBody :=
  match deleteHandler1Core models results with
  | .error e => errorHandlerRender e
  | .ok r => r

/-- The second-registered `DELETE /api/models` handler (`server.js:987`),
shadowed by the first registration: it responds `207` directly with the
`failed` list and `deleted` count on partial failure, and throws a 500
error when every deletion failed. -/
def deleteHandler2 (models : List String) (results : List SettleResult) : Nat × DeleteBody :=
  let failed := failedOf models results
  if 0 < failed.length then
    if failed.length = models.length then
      errorHandlerRender ⟨500, "Failed to delete all models"⟩
    else
      (207, { success := true, message := "Some models could not be deleted",
              failed := some failed, deleted := some (models.length - failed.length) })
  else
    (200, { success := true, message := "Models deleted successfully",
            count := some models.length })

/-! ## Stream-end synthetic success record (`server.js:590` and 866)

The downstream response of a streamed relay.  `response.data.pipe(res)`
(`server.js:575` / 848) attaches Node's internal end listener — which
calls `res.end()`, serializing the response headers even when no byte
was written — *before* the handler registers its own `'end'` listener
(`server.js:590` / 866).  Listeners fire in registration order, so by
the time the handler's listener checks `res.headersSent` on a clean
upstream end, the headers have always been sent, whatever was
forwarded. -/

structure DownstreamRes where
  headersSent : Bool
  ended : Bool
  body : List String
deriving Repr, DecidableEq

/-- The response before anything was written to it. -/
def initRes : DownstreamRes := { headersSent := false, ended := false, body := [] }

/-- Forwarding one piped chunk: writing sends the headers. -/
def writeChunk (res : DownstreamRes) (c : String) : DownstreamRes :=
  { res with headersSent := true, body := res.body ++ [c] }

/-- `res.end()`: headers are serialized (if not already) and the
response is finished. -/
def resEnd (res : DownstreamRes) : DownstreamRes :=
  { res with headersSent := true, ended := true }

def jsonSuccessPull (model : String) : String :=
  "\x7b\"status\":\"success\",\"model\":\"" ++ model ++ "\"\x7d"

def jsonSuccessOp (model operation : String) : String :=
  "\x7b\"status\":\"success\",\"model\":\"" ++ model ++ "\",\"operation\":\"" ++
    operation ++ "\"\x7d"

/-- The handler's `'end'` listener of the `POST /api/pull` relay
(`server.js:590`):
`if (!res.headersSent) res.end(JSON.stringify({status:'success', model}))`. -/
def pullEndListener (model : String) (res : DownstreamRes) : DownstreamRes :=
  if res.headersSent then res
  else resEnd { res with body := res.body ++ [jsonSuccessPull model] }

/-- The handler's `'end'` listener of `handleModelOperation`
(`server.js:866`); the record additionally carries the operation kind. -/
def opEndListener (model operation : String) (res : DownstreamRes) : DownstreamRes :=
  if res.headersSent then res
  else resEnd { res with body := res.body ++ [jsonSuccessOp model operation] }

/-- A clean, error-free upstream end of the pull relay: the forwarded
chunks are written, then `pipe`'s internal end listener calls
`res.end()`, and only then does the handler's `'end'` listener run. -/
def relayPullCleanEnd (chunks : List String) (model : String) : DownstreamRes :=
  pullEndListener model (resEnd (chunks.foldl writeChunk initRes))

/-- The same clean-end sequence for `handleModelOperation`. -/
def relayOpCleanEnd (chunks : List String) (model operation : String) : DownstreamRes :=
  opEndListener model operation (resEnd (chunks.foldl writeChunk initRes))

/-! ## `POST /api/set-endpoint` (`server.js:298`) -/

structure ServerState where
  ollamaEndpoint : String
deriving Repr, DecidableEq

inductive ProbeOutcome where
  | ok
  | fail (msg : String)
deriving Repr, DecidableEq

def probeOk : ProbeOutcome → Bool
  | .ok => true
  | .fail _ => false

structure EndpointResp where
  status : Nat
  success : Bool
  message : String
deriving Repr, DecidableEq

/-- The handler body: express-validator's URL check throws a 400 before
the endpoint is touched; the probe `GET {endpoint}/api/tags` is awaited,
and only on its success is `ollamaEndpoint` reassigned — the `catch`
rethrows a 400 with the endpoint untouched. -/
def setEndpointHandler (st : ServerState) (validUrl : Bool) (endpoint : String)
    (probe : ProbeOutcome) : ServerState × EndpointResp :=
  if !validUrl then
    (st, ⟨400, false, "Valid URL is required"⟩)
  else
    match probe with
    | .ok =>
      ({ ollamaEndpoint := endpoint }, ⟨200, true, "Endpoint set successfully"⟩)
    | .fail m =>
      (st, ⟨400, false, "Failed to connect to endpoint: " ++ m⟩)

/-! ## Chunk-level runs of the two stateful consumers

The real loops read one chunk at a time and iterate its lines, carrying
`lastStatus` (and a pending thrown error) across chunks; this equals
folding the line step over the concatenation of each chunk's lines. -/

def updProcessChunks (chunks : List String) : UpdState :=
  processUpdateStream ((chunks.map chunkLines).flatten)

def pull0ProcessChunks (chunks : List String) : P0State :=
  pull0Process ((chunks.map chunkLines).flatten)

/-! ## The spec's percentage formula (for the refinement claim C7) -/

/-- Modelled from the spec's words, §4.3:
`percent = total>0 ? round(completed/total*100) : 0`, with exact rational
rounding (round half up). -/
def specPercent (completed total : Nat) : Nat :=
  if 0 < total then (round ((completed : ℚ) * 100 / total)).toNat else 0

/-! ## Concrete stream fixtures used in the theorems -/

def dlLine : String := "\x7b\"status\":\"downloading\",\"completed\":1,\"total\":2\x7d"

def succLine : String := "\x7b\"status\":\"success\"\x7d"

def errLine : String := "\x7b\"status\":\"error\",\"error\":\"disk full\"\x7d"

def errDefaultLine : String := "\x7b\"status\":\"error\"\x7d"

def wmLine : String := "\x7b\"status\":\"writing manifest\"\x7d"

/-- The §8.2 payload: a valid downloading line, an invalid line, a valid
success line. -/
def c8payload : String := dlLine ++ "\nNOT JSON\n" ++ succLine ++ "\n"

/-- A well-formed one-record payload delivered as a single chunk. -/
def wholePayload : String := succLine ++ "\n"

/-- The same bytes as `wholePayload`, split mid-line into two chunks. -/
def splitA : String := "\x7b\"status\":"

def splitB : String := "\"success\"\x7d\n"

/-- A stream carrying an explicit operation error with a message,
followed by a success record. -/
def c2payload : String := errLine ++ "\n" ++ succLine ++ "\n"

/-! ## Helper lemmas -/

/-- The integer formula `(2n + d) / (2d)` computes `Math.round (n / d)`
(round half up) exactly. -/
theorem jsRoundDiv_eq_round (n d : Nat) (hd : 0 < d) :
    jsRoundDiv n d = (round ((n : ℚ) / d)).toNat := by
  have hdq : (d : ℚ) ≠ 0 := Nat.cast_ne_zero.mpr hd.ne'
  have hq : (n : ℚ) / d + 1 / 2 = ((2 * n + d : ℕ) : ℚ) / ((2 * d : ℕ) : ℚ) := by
    push_cast
    field_simp
    ring
  rw [round_eq, hq, Int.floor_toNat, Nat.floor_div_nat]
  rfl

/-- Piping a list of chunks appends them to the response body. -/
theorem foldl_writeChunk_body (chunks : List String) (res : DownstreamRes) :
    (chunks.foldl writeChunk res).body = res.body ++ chunks := by
  induction chunks generalizing res with
  | nil => simp
  | cons c cs ih => simp [writeChunk, ih]

/-! ## Theorems for the claims -/

/-- Claim C1: the chunk-processing loops of the stream consumers were
claimed to emit the same ordered record sequence for every chunk
partition of a well-formed NDJSON payload.  Neither loop carries a
partial-line fragment across chunks, so a mid-line split changes the
output: delivered whole, the payload yields its success record and the
corresponding UI event in both consumers; split mid-line it yields
nothing. -/
theorem c1_demux_not_chunk_invariant :
    demuxRecords [wholePayload] = [{ status := "success" }]
    ∧ demuxRecords [splitA, splitB] = []
    ∧ appProcessChunks [wholePayload] = [.label "Pull completed successfully"]
    ∧ appProcessChunks [splitA, splitB] = []
    ∧ (updProcessChunks [wholePayload]).rendered = ["success"]
    ∧ (updProcessChunks [splitA, splitB]).rendered = [] :=
  ⟨rfl, rfl, rfl, rfl, rfl, rfl⟩

/-- Claim C2: a `{"status":"error","error":"disk full"}` record was
claimed to raise an error carrying exactly its message and stop the
stream.  In both consumers the rethrow guard compares the thrown message
against the *default* message only, so a supplied message is logged like
a parse failure and processing continues (the following success record
is still rendered); only an error record without a message terminates
the stream. -/
theorem c2_error_message_swallowed :
    pull0ProcessChunks [c2payload] =
      { lastStatus := "success", events := [.status "success"], err := none }
    ∧ updProcessChunks [c2payload] =
      { lastStatus := "success", rendered := ["success"], err := none }
    ∧ (pull0ProcessChunks [errDefaultLine ++ "\n"]).err = some "Pull failed"
    ∧ (updProcessChunks [errDefaultLine ++ "\n"]).err = some "Update failed" :=
  ⟨rfl, rfl, rfl, rfl⟩

/-- Claim C3: the catch-all not-found middleware registered at
`server.js:351` precedes the five API routes, so every request to those
paths is answered by the 404 path through the global error handler
(registered after it), and the route handlers — hence the upstream
daemon — are never reached. -/
theorem c3_api_routes_shadowed_by_404 :
    runStack serverStack ⟨"GET", "/api/models"⟩ =
      some ⟨404, "\x7b\"success\":false,\"message\":\"Not Found - /api/models\"\x7d"⟩
    ∧ runStack serverStack ⟨"DELETE", "/api/models"⟩ =
      some ⟨404, "\x7b\"success\":false,\"message\":\"Not Found - /api/models\"\x7d"⟩
    ∧ runStack serverStack ⟨"POST", "/api/pull"⟩ =
      some ⟨404, "\x7b\"success\":false,\"message\":\"Not Found - /api/pull\"\x7d"⟩
    ∧ runStack serverStack ⟨"GET", "/api/ps"⟩ =
      some ⟨404, "\x7b\"success\":false,\"message\":\"Not Found - /api/ps\"\x7d"⟩
    ∧ runStack serverStack ⟨"POST", "/api/update-model"⟩ =
      some ⟨404, "\x7b\"success\":false,\"message\":\"Not Found - /api/update-model\"\x7d"⟩ :=
  ⟨rfl, rfl, rfl, rfl, rfl⟩

/-- Claim C4: a mixed-outcome bulk delete was claimed to answer 207 with
`deleted` and `failed` in the body.  End to end the route is shadowed by
the 404 middleware; the first-registered handler, if it were reached,
throws `createError(207, …)`, which the global error handler renders
*without* the `deleted` and `failed` fields; the second-registered
handler implements exactly the claimed response but is shadowed by the
first registration. -/
theorem c4_bulk_delete_partial_failure :
    runStack serverStack ⟨"DELETE", "/api/models"⟩ =
      some ⟨404, "\x7b\"success\":false,\"message\":\"Not Found - /api/models\"\x7d"⟩
    ∧ deleteRoute1 ["a", "b"] [.ok, .rejected "delete failed"] =
      (207, { success := false, message := "Some models could not be deleted" })
    ∧ deleteHandler2 ["a", "b"] [.ok, .rejected "delete failed"] =
      (207, { success := true, message := "Some models could not be deleted",
              failed := some [("b", "delete failed")], deleted := some 1 }) :=
  ⟨rfl, rfl, rfl⟩

/-- Claim C5 counterexample: the update projector labels
`verifying digest` as "Verifying download...", not the claimed
"Verifying checksum...", and the `app.js` pull loop displays nothing at
all for that status. -/
theorem c5_verifying_digest_counterexample :
    handleUpdateStatus { status := "verifying digest" } = .ok "Verifying download..."
    ∧ "Verifying download..." ≠ "Verifying checksum..."
    ∧ appEventsOfRecord { status := "verifying digest" } = [] :=
  ⟨rfl, by decide, rfl⟩

/-- Claim C5 (amended): `handleUpdateStatus` maps `verifying digest` to
"Verifying download..." and `writing manifest` to "Finalizing update...",
and passes every other non-`downloading`, non-`error` status (including
`verifying` and `success`) through verbatim; the `app.js` pull loop maps
`verifying` to "Verifying checksum..." and `success` to
"Pull completed successfully" and displays nothing for any other
non-`downloading` status. -/
theorem c5_projector_label_table :
    (∀ c t e, handleUpdateStatus ⟨"verifying digest", c, t, e⟩ = .ok "Verifying download...")
    ∧ (∀ c t e, handleUpdateStatus ⟨"writing manifest", c, t, e⟩ = .ok "Finalizing update...")
    ∧ (∀ r : ProgressRecord, r.status ≠ "error" → r.status ≠ "downloading" →
        r.status ≠ "verifying digest" → r.status ≠ "writing manifest" →
        handleUpdateStatus r = .ok r.status)
    ∧ (∀ c t e, appEventsOfRecord ⟨"verifying", c, t, e⟩ = [.label "Verifying checksum..."])
    ∧ (∀ c t e, appEventsOfRecord ⟨"success", c, t, e⟩ =
        [.label "Pull completed successfully"])
    ∧ (∀ r : ProgressRecord, r.status ≠ "downloading" → r.status ≠ "verifying" →
        r.status ≠ "success" → appEventsOfRecord r = []) := by
  refine ⟨fun c t e => rfl, fun c t e => rfl, ?_, fun c t e => rfl, fun c t e => rfl, ?_⟩
  · intro r h1 h2 h3 h4
    simp [handleUpdateStatus, h1, h2, h3, h4]
  · intro r h1 h2 h3
    simp [appEventsOfRecord, h1, h2, h3]

/-- Claim C5 witness: the verbatim-passthrough clauses instantiated at a
concrete unrecognized status string. -/
theorem c5_projector_label_table_witness :
    handleUpdateStatus { status := "pulling manifest" } = .ok "pulling manifest"
    ∧ appEventsOfRecord { status := "pulling manifest" } = [] :=
  ⟨c5_projector_label_table.2.2.1 { status := "pulling manifest" }
      (by decide) (by decide) (by decide) (by decide),
    c5_projector_label_table.2.2.2.2.2 { status := "pulling manifest" }
      (by decide) (by decide) (by decide)⟩

/-- Claim C6 counterexample: two identical consecutive `downloading`
records are rendered once by `processUpdateStream` — its de-duplication
also suppresses `downloading` labels, contradicting "every downloading
record always triggers a re-render". -/
theorem c6_downloading_dedup_counterexample :
    (updProcessChunks [dlLine ++ "\n" ++ dlLine ++ "\n"]).rendered =
      ["Downloading: 50.0%"] :=
  rfl

/-- Claim C6 (amended): both consumers re-render a non-downloading label
only when it differs from the last rendered status, so the sequence
["writing manifest","writing manifest","success"] produces exactly two
updates in each; `downloading` records always re-render in the inline
`pullModel` loop, while `processUpdateStream` de-duplicates them by
their formatted label like any other status. -/
theorem c6_label_dedup :
    (∀ (st : P0State) (c t : Option Nat) (e : Option String),
       (p0StepRecord st ⟨"downloading", c, t, e⟩).events =
         st.events ++
           [ .progress ("Downloading: " ++ fmtSize0 c ++ " / " ++ fmtSize0 t)
               "downloading" ])
    ∧ (∀ (st : P0State) (r : ProgressRecord), r.status ≠ "error" →
       r.status ≠ "downloading" →
       (p0StepRecord st r).events =
         if r.status ≠ st.lastStatus then st.events ++ [.status r.status] else st.events)
    ∧ (∀ (st : UpdState) (r : ProgressRecord) (l : String),
       handleUpdateStatus r = .ok l →
       (updStepRecord st r).rendered =
         if l ≠ st.lastStatus then st.rendered ++ [l] else st.rendered)
    ∧ (updProcessChunks [wmLine ++ "\n" ++ wmLine ++ "\n" ++ succLine ++ "\n"]).rendered =
        ["Finalizing update...", "success"]
    ∧ (pull0ProcessChunks [wmLine ++ "\n" ++ wmLine ++ "\n" ++ succLine ++ "\n"]).events =
        [.status "writing manifest", .status "success"] := by
  refine ⟨fun st c t e => rfl, ?_, ?_, rfl, rfl⟩
  · intro st r h1 h2
    simp only [p0StepRecord, h1, h2, if_false]
    split <;> simp_all
  · intro st r l h
    simp only [updStepRecord, h]
    split <;> simp_all

/-- Claim C6 witness: the de-duplication clause of `updStepRecord`
instantiated at the initial state and a `writing manifest` record. -/
theorem c6_label_dedup_witness :
    (updStepRecord updInit { status := "writing manifest" }).rendered =
      (if ("Finalizing update..." : String) ≠ updInit.lastStatus then
        updInit.rendered ++ ["Finalizing update..."] else updInit.rendered) :=
  c6_label_dedup.2.2.1 updInit { status := "writing manifest" } "Finalizing update..." rfl

/-- Claim C7 counterexample: `handleUpdateStatus` performs the division
unguarded, so `{"status":"downloading","completed":0,"total":0}` is
displayed as "Downloading: NaN%", not as percent 0. -/
theorem c7_nan_counterexample :
    handleUpdateStatus { status := "downloading", completed := some 0, total := some 0 } =
      .ok "Downloading: NaN%"
    ∧ (updProcessChunks
        ["\x7b\"status\":\"downloading\",\"completed\":0,\"total\":0\x7d\n"]).rendered =
      ["Downloading: NaN%"] :=
  ⟨rfl, rfl⟩

/-- Claim C7 (amended): the zero guard exists only in the `app.js` pull
loop, whose displayed percentage agrees with the spec formula
`total>0 ? round(completed/total*100) : 0` — in particular
`completed=0,total=0` yields 0 — while `handleUpdateStatus` divides
unguarded and renders "NaN" for `0/0`. -/
theorem c7_percent_guard :
    (∀ c t : Nat, appPercent (some c) (some t) = some (specPercent c t))
    ∧ appPercent (some 0) (some 0) = some 0
    ∧ progressStr (some 0) (some 0) = "NaN" := by
  refine ⟨?_, rfl, rfl⟩
  intro c t
  by_cases ht : 0 < t
  · have hcast : ((100 * c : ℕ) : ℚ) / (t : ℚ) = (c : ℚ) * 100 / t := by
      push_cast
      ring
    simp [appPercent, specPercent, ht, jsRoundDiv_eq_round (100 * c) t ht, hcast]
    ring_nf
  · interval_cases t
    simp [appPercent, specPercent]

/-- Claim C8: an invalid JSON line is logged and skipped without
affecting adjacent valid lines: the reference payload yields exactly two
display events in both consumers, and a line that fails to parse never
changes the loops' state or output. -/
theorem c8_invalid_line_skipped :
    appProcessChunks [c8payload] =
      [ .downloading (some 50) "Downloading: 50% (1 B / 2 B)",
        .label "Pull completed successfully" ]
    ∧ updProcessChunks [c8payload] =
      { lastStatus := "success", rendered := ["Downloading: 50.0%", "success"],
        err := none }
    ∧ (∀ pre post bad, parseLine bad = none →
        appProcessLines (pre ++ bad :: post) = appProcessLines (pre ++ post))
    ∧ (∀ (st : UpdState) (bad : String), parseLine bad = none → updStepLine st bad = st)
    ∧ (∀ (st : P0State) (bad : String), parseLine bad = none → p0StepLine st bad = st) := by
  refine ⟨rfl, rfl, ?_, ?_, ?_⟩
  · intro pre post bad h
    simp [appProcessLines, appProcessLine, h]
  · intro st bad h
    simp only [updStepLine, h]
    split <;> simp_all
  · intro st bad h
    simp only [p0StepLine, h]
    split <;> simp_all

/-- Claim C8 witness: the skip clause instantiated at the reference
payload's invalid middle line. -/
theorem c8_invalid_line_skipped_witness :
    parseLine "NOT JSON" = none
    ∧ appProcessLines ([dlLine] ++ "NOT JSON" :: [succLine]) =
      appProcessLines ([dlLine] ++ [succLine]) :=
  ⟨by decide, c8_invalid_line_skipped.2.2.1 [dlLine] [succLine] "NOT JSON" (by decide)⟩

/-- Claim C9: the relay was claimed to append the synthetic success
record on clean upstream end iff headers were not already sent by the
forwarded content.  In fact `pipe(res)` calls `res.end()` from its own
earlier-registered end listener, so the headers have always been sent
when the handler's listener runs — the synthetic record is never
appended, even when the upstream body was empty (no content forwarded),
and the guarded append branch is dead code (it would append exactly
under `!headersSent`, as the last two clauses show). -/
theorem c9_synthetic_success_never_appended :
    (∀ (chunks : List String) (model : String),
        relayPullCleanEnd chunks model =
          { headersSent := true, ended := true, body := chunks })
    ∧ (∀ (chunks : List String) (model operation : String),
        relayOpCleanEnd chunks model operation =
          { headersSent := true, ended := true, body := chunks })
    ∧ (relayPullCleanEnd [] "llama2").body = []
    ∧ (∀ (res : DownstreamRes) (model : String),
        (pullEndListener model res).body =
          if res.headersSent then res.body else res.body ++ [jsonSuccessPull model])
    ∧ (∀ (res : DownstreamRes) (model operation : String),
        (opEndListener model operation res).body =
          if res.headersSent then res.body
          else res.body ++ [jsonSuccessOp model operation]) := by
  refine ⟨?_, ?_, rfl, ?_, ?_⟩
  · intro chunks model
    simp [relayPullCleanEnd, pullEndListener, resEnd, foldl_writeChunk_body, initRes]
  · intro chunks model operation
    simp [relayOpCleanEnd, opEndListener, resEnd, foldl_writeChunk_body, initRes]
  · intro res model
    rcases res with ⟨hs, e, b⟩
    cases hs <;> simp [pullEndListener, resEnd]
  · intro res model operation
    rcases res with ⟨hs, e, b⟩
    cases hs <;> simp [opEndListener, resEnd]

/-- Claim C10: `POST /api/set-endpoint` is atomic with respect to the
process-wide endpoint: `ollamaEndpoint` is reassigned exactly when URL
validation and the connectivity probe both succeed (status 200); every
failing request answers 400 and leaves the endpoint unchanged. -/
theorem c10_set_endpoint_atomic :
    ∀ (st : ServerState) (validUrl : Bool) (endpoint : String) (probe : ProbeOutcome),
      (setEndpointHandler st validUrl endpoint probe).1 =
        (if validUrl && probeOk probe then { ollamaEndpoint := endpoint } else st)
      ∧ (setEndpointHandler st validUrl endpoint probe).2.status =
        (if validUrl && probeOk probe then 200 else 400) := by
  intro st v e p
  cases v <;> cases p <;> simp [setEndpointHandler, probeOk]

end OllamaSpec
